import Mathlib

/-!
# AutoTailor — verification of the passwordless-auth and generation lifecycle

Shallow embedding of the core of the AutoTailor Flask app (`app.py`,
`models.py`).  The database tables (`users`, `profiles`, `generated_resumes`)
are modelled as lists of records; SQLAlchemy's `one_or_none` /
`Session.get` lookups become `List.find?`.  Wall-clock time is modelled as
integer seconds (UTC instants); a Python `datetime` is a pair of an instant
and an awareness flag, so that the code's coercion of naive SQLite
timestamps to UTC (`expiry.replace(tzinfo=timezone.utc)`) is explicit.
Randomness (the 6-digit code drawn in `signin`) and the external renderer
(`generate_both`) are passed in as parameters.  The filesystem of artifact
files is explicit state, including which removals raise, so that the
best-effort cleanup in `delete_resume` can be reasoned about.
-/

namespace AutoTailor

/-- A Python `datetime`: an instant (seconds; for a naive value, the instant
its wall-clock fields denote when read as UTC) plus an awareness flag. -/
structure PyDateTime where
  t : Int
  aware : Bool
deriving Repr, DecidableEq

/-- The coercion `d.replace(tzinfo=timezone.utc)` applied only when `d.tzinfo is None`:
the coercion performed in `verify` before comparing against `now`. -/
def coerceUTC (d : PyDateTime) : PyDateTime :=
  if d.aware then d else { t := d.t, aware := true }

/-- Row of the `users` table (`models.User`). -/
structure UserRec where
  id : Nat
  email : String
  verified : Nat
  verify_code : Option String
  verify_expiry : Option PyDateTime
deriving Repr, DecidableEq

/-- Python `str.strip` whitespace test (ASCII whitespace suffices for the
strings handled here). -/
def isPySpace (c : Char) : Bool := c = ' ' || c = '\t' || c = '\n' || c = '\r'

def stripChars (cs : List Char) : List Char :=
  ((cs.dropWhile isPySpace).reverse.dropWhile isPySpace).reverse

/-- Python `str.strip()`. -/
def pyStrip (s : String) : String := ⟨stripChars s.data⟩

/-- Python `str.lower()` (ASCII case mapping, as for the inputs at hand). -/
def pyLower (s : String) : String := ⟨s.data.map Char.toLower⟩

/-- Email normalization `form.email.data.strip().lower()`. -/
def normEmail (e : String) : String := pyLower (pyStrip e)

/-- Next autoincrement id for the `users` table. -/
def freshId (db : List UserRec) : Nat :=
  db.foldr (fun u m => max u.id m) 0 + 1

/-- Mutate the user row(s) holding `email` in place (the `user.x = ...`
assignments followed by `sess.commit()`; `email` is UNIQUE, so at most one
row is affected in any reachable database). -/
def updateUser (db : List UserRec) (email : String) (f : UserRec → UserRec) :
    List UserRec :=
  db.map (fun u => if u.email == email then f u else u)

/-- The fresh row created by `signin` when no user exists, after the
code/expiry assignments: `User(email=email, verified=0)` then
`verify_code = code; verify_expiry = now + 10 minutes`. -/
def newUser (db : List UserRec) (email code : String) (now : Int) : UserRec :=
  { id := freshId db, email := email, verified := 0,
    verify_code := some code, verify_expiry := some ⟨now + 600, true⟩ }

/-- The assignments `signin` performs on an existing user. -/
def issueFn (code : String) (now : Int) (u : UserRec) : UserRec :=
  { u with verify_code := some code, verify_expiry := some ⟨now + 600, true⟩ }

/-- Route `signin` (POST branch): normalize the email, create the account if
absent, store a fresh code with a 10-minute expiry.  The randomly drawn
6-digit `code` and the current time are parameters. -/
def signin (db : List UserRec) (rawEmail code : String) (now : Int) :
    List UserRec :=
  match db.find? (fun u => u.email == normEmail rawEmail) with
  | none => db ++ [newUser db (normEmail rawEmail) code now]
  | some _ => updateUser db (normEmail rawEmail) (issueFn code now)

inductive VerifyResult
  | success
  | invalidCredential
deriving Repr, DecidableEq

/-- The assignments `verify` performs on success. -/
def clearFn (u : UserRec) : UserRec :=
  { u with verified := 1, verify_code := none, verify_expiry := none }

/-- Route `verify` (POST branch): looks the user up by normalized email, coerces a
naive stored expiry to UTC, and succeeds iff the stored code equals the
trimmed submitted code and `expiry >= now`; on success sets `verified = 1`
and clears code and expiry, otherwise flashes "Invalid or expired code" and
changes nothing. -/
def verify (db : List UserRec) (rawEmail rawCode : String) (now : Int) :
    VerifyResult × List UserRec :=
  match db.find? (fun u => u.email == normEmail rawEmail) with
  | none => (.invalidCredential, db)
  | some u =>
    match u.verify_expiry with
    | none => (.invalidCredential, db)
    | some exp0 =>
      if u.verify_code = some (pyStrip rawCode) ∧ now ≤ (coerceUTC exp0).t then
        (.success, updateUser db (normEmail rawEmail) clearFn)
      else
        (.invalidCredential, db)

/-! ## Basic lemmas about the auth state -/

theorem coerceUTC_t (d : PyDateTime) : (coerceUTC d).t = d.t := by
  unfold coerceUTC; split <;> rfl

/-- Lookup by email commutes with a map that preserves emails. -/
theorem find?_map_email (g : UserRec → UserRec)
    (hg : ∀ v, (g v).email = v.email) (db : List UserRec) (e : String) :
    (db.map g).find? (fun v => v.email == e)
      = (db.find? (fun v => v.email == e)).map g := by
  induction db with
  | nil => rfl
  | cons a l ih =>
    simp only [List.map_cons, List.find?_cons, hg a]
    cases h : (a.email == e) <;> simp [ih]

theorem find?_updateUser (db : List UserRec) (e : String)
    (f : UserRec → UserRec) (hf : ∀ v, (f v).email = v.email) :
    (updateUser db e f).find? (fun v => v.email == e)
      = (db.find? (fun v => v.email == e)).map
          (fun u => if u.email == e then f u else u) := by
  unfold updateUser
  exact find?_map_email _ (fun v => by by_cases h : v.email == e <;> simp [h, hf v]) db e

theorem issueFn_email (c : String) (t : Int) (u : UserRec) :
    (issueFn c t u).email = u.email := rfl

theorem clearFn_email (u : UserRec) : (clearFn u).email = u.email := rfl

/-- After `signin`, the user looked up by the normalized email exists and
carries exactly the freshly issued code and expiry. -/
theorem signin_find (db : List UserRec) (e code : String) (now : Int) :
    ∃ u : UserRec,
      (signin db e code now).find? (fun v => v.email == normEmail e) = some u
        ∧ u.verify_code = some code
        ∧ u.verify_expiry = some ⟨now + 600, true⟩
        ∧ u.email = normEmail e := by
  unfold signin
  cases h : db.find? (fun u => u.email == normEmail e) with
  | none =>
    refine ⟨newUser db (normEmail e) code now, ?_, rfl, rfl, rfl⟩
    rw [List.find?_append, h]
    simp [newUser]
  | some w =>
    have hw : (w.email == normEmail e) = true :=
      List.find?_some (p := fun (u : UserRec) => u.email == normEmail e) h
    refine ⟨issueFn code now w, ?_, rfl, rfl, ?_⟩
    · rw [find?_updateUser db (normEmail e) _ (issueFn_email code now), h]
      simp [hw]
      intro hc
      exact absurd (by simpa using hw) hc
    · simpa [issueFn] using (by simpa using hw : w.email = normEmail e)

/-- Updating the user found by email yields exactly the updated user at the
same lookup. -/
theorem find?_updateUser_self (db : List UserRec) (e : String)
    (f : UserRec → UserRec) (hf : ∀ v, (f v).email = v.email) (u : UserRec)
    (hfind : db.find? (fun v => v.email == e) = some u) :
    (updateUser db e f).find? (fun v => v.email == e) = some (f u) := by
  rw [find?_updateUser db e f hf, hfind]
  have hw : (u.email == e) = true :=
    List.find?_some (p := fun (v : UserRec) => v.email == e) hfind
  simp [hw]
  intro hc
  exact absurd (by simpa using hw) hc

/-- Route `verify` leaves the table unchanged or clears the found user. -/
theorem verify_snd_cases (db : List UserRec) (e c : String) (now : Int) :
    (verify db e c now).2 = db
      ∨ (verify db e c now).2 = updateUser db (normEmail e) clearFn := by
  cases hfind : db.find? (fun u => u.email == normEmail e) with
  | none => left; simp [verify, hfind]
  | some u =>
    cases hexp : u.verify_expiry with
    | none => left; simp [verify, hfind, hexp]
    | some exp0 =>
      by_cases hcond : u.verify_code = some (pyStrip c) ∧ now ≤ (coerceUTC exp0).t
      · right; simp [verify, hfind, hexp, if_pos hcond]
      · left; simp [verify, hfind, hexp, if_neg hcond]

/-! ## Claims about the auth state machine -/

/-- C1 (counterexample): the claim "after a second `request_code(e)` call,
`verify_code(e, first_code)` returns invalid-credential for any value the
first randomly issued code took" is false on the code when the second
randomly drawn code collides with the first: here both draws are `123456`
and the first code still verifies successfully. -/
theorem C1_counterexample :
    (verify (signin (signin [] "a@x.com" "123456" 0) "a@x.com" "123456" 0)
        "a@x.com" "123456" 0).1 = VerifyResult.success := by decide

/-- C1 (amended): for every email and database, if the second issued code
differs from the first (the codes are random, so a collision is possible),
a second `request_code` invalidates the first code: `verify_code` with the
first code then returns invalid-credential, whatever the times involved. -/
theorem C1_second_request_invalidates (db : List UserRec) (e c1 c2 : String)
    (t1 t2 t3 : Int) (h1 : pyStrip c1 = c1) (h2 : c1 ≠ c2) :
    (verify (signin (signin db e c1 t1) e c2 t2) e c1 t3).1
      = VerifyResult.invalidCredential := by
  obtain ⟨u, hu, hcode, hexp, -⟩ := signin_find (signin db e c1 t1) e c2 t2
  have hcond : ¬(u.verify_code = some (pyStrip c1)
      ∧ t3 ≤ (coerceUTC ⟨t2 + 600, true⟩).t) := by
    rintro ⟨hc, -⟩
    rw [hcode, h1] at hc
    exact h2 (Option.some.inj hc).symm
  simp [verify, hu, hexp, if_neg hcond]

/-- C1 witness: concrete run with two distinct codes. -/
theorem C1_second_request_invalidates_witness :
    (verify (signin (signin [] "a@x.com" "123456" 0) "a@x.com" "654321" 0)
        "a@x.com" "123456" 5).1 = VerifyResult.invalidCredential :=
  C1_second_request_invalidates [] "a@x.com" "123456" "654321" 0 0 5
    (by decide) (by decide)

/-- C2: with the correct stored code, `verify_code` succeeds exactly when
`now ≤ expiry` (boundary `now = expiry` succeeds) and returns
invalid-credential exactly when `expiry < now`; the stored expiry may be
naive (`aware = false`) or aware, as it is coerced to UTC first. -/
theorem C2_expiry_boundary (db : List UserRec) (e c : String) (u : UserRec)
    (exp0 : PyDateTime) (now : Int)
    (hfind : db.find? (fun v => v.email == normEmail e) = some u)
    (hcode : u.verify_code = some (pyStrip c))
    (hexp : u.verify_expiry = some exp0) :
    ((verify db e c now).1 = VerifyResult.success ↔ now ≤ exp0.t)
      ∧ ((verify db e c now).1 = VerifyResult.invalidCredential
          ↔ exp0.t < now) := by
  have hcoerce : (coerceUTC exp0).t = exp0.t := coerceUTC_t exp0
  by_cases h : now ≤ exp0.t
  · have hcond : u.verify_code = some (pyStrip c) ∧ now ≤ (coerceUTC exp0).t :=
      ⟨hcode, by rw [hcoerce]; exact h⟩
    simp [verify, hfind, hexp, if_pos hcond, h, not_lt.mpr h]
  · have hcond : ¬(u.verify_code = some (pyStrip c)
        ∧ now ≤ (coerceUTC exp0).t) := by
      rintro ⟨-, hle⟩
      rw [hcoerce] at hle
      exact h hle
    simp [verify, hfind, hexp, if_neg hcond, h, not_le.mp h]

/-- C2 witness: naive stored expiry at the boundary `now = expiry`
succeeds; one second later it fails. -/
theorem C2_expiry_boundary_witness :
    ((verify [⟨1, "a@x.com", 0, some "123456", some ⟨100, false⟩⟩]
        "a@x.com" "123456" 100).1 = VerifyResult.success ↔ (100 : Int) ≤ 100)
      ∧ ((verify [⟨1, "a@x.com", 0, some "123456", some ⟨100, false⟩⟩]
          "a@x.com" "123456" 100).1 = VerifyResult.invalidCredential
            ↔ (100 : Int) < 100) :=
  C2_expiry_boundary [⟨1, "a@x.com", 0, some "123456", some ⟨100, false⟩⟩]
    "a@x.com" "123456" ⟨1, "a@x.com", 0, some "123456", some ⟨100, false⟩⟩
    ⟨100, false⟩ 100 (by decide) (by decide) (by decide)

/-- C3: `verify_code` is atomic and single-use: on failure the user table
is unchanged; on success the found account gets `verified = 1` with code
and expiry cleared, and repeating `verify_code` with the same code fails
and changes nothing. -/
theorem C3_verify_atomic_single_use (db : List UserRec) (e c : String)
    (now now2 : Int) :
    ((verify db e c now).1 = VerifyResult.invalidCredential
        ∧ (verify db e c now).2 = db)
      ∨ ((verify db e c now).1 = VerifyResult.success
          ∧ (∃ u, db.find? (fun v => v.email == normEmail e) = some u
              ∧ ((verify db e c now).2).find? (fun v => v.email == normEmail e)
                  = some { u with verified := 1, verify_code := none,
                                  verify_expiry := none })
          ∧ verify ((verify db e c now).2) e c now2
              = (VerifyResult.invalidCredential, (verify db e c now).2)) := by
  cases hfind : db.find? (fun v => v.email == normEmail e) with
  | none => left; simp [verify, hfind]
  | some u =>
    cases hexp : u.verify_expiry with
    | none => left; simp [verify, hfind, hexp]
    | some exp0 =>
      by_cases hcond : u.verify_code = some (pyStrip c)
          ∧ now ≤ (coerceUTC exp0).t
      · right
        have hres : verify db e c now
            = (.success, updateUser db (normEmail e) clearFn) := by
          simp [verify, hfind, hexp, if_pos hcond]
        have hupd : (updateUser db (normEmail e) clearFn).find?
            (fun v => v.email == normEmail e) = some (clearFn u) :=
          find?_updateUser_self db (normEmail e) clearFn clearFn_email u hfind
        refine ⟨by rw [hres], ⟨u, rfl, ?_⟩, ?_⟩
        · rw [hres]
          exact hupd
        · rw [hres]
          simp [verify, hupd, clearFn]
      · left; simp [verify, hfind, hexp, if_neg hcond]

/-! ## Profiles (`models.Profile`, route `profile`) -/

/-- Row of the `profiles` table. -/
structure ProfileRec where
  user_id : Nat
  full_name : String
  city : Option String
  email : Option String
  phone : Option String
  linkedin : Option String
  github : Option String
  about : Option String
  gemini_api_key : Option String
deriving Repr, DecidableEq

/-- The submitted `ProfileForm` data (optional fields may be absent, the
route guards them with `or ""`; `full_name` is `DataRequired`). -/
structure ProfileForm where
  full_name : String
  city : Option String
  email : Option String
  phone : Option String
  web : Option String
  about : Option String
  gemini_api_key : Option String
deriving Repr, DecidableEq

/-- The POST branch of the `profile` route: builds the `data` dict (trimmed
fields, combined web link stored into `linkedin`, `github` cleared), then
either creates a fresh `Profile` or mutates the existing one in place; the
`about` / `gemini_api_key` columns are touched only when present in the
schema (`HAS_PROFILE_ABOUT` / `HAS_PROFILE_GEMINI`). -/
def save_profile (prof : Option ProfileRec) (uid : Nat) (f : ProfileForm)
    (hasAbout hasGemini : Bool) : ProfileRec :=
  let base : ProfileRec :=
    match prof with
    | none =>
      { user_id := uid
        full_name := pyStrip f.full_name
        city := some (pyStrip (f.city.getD ""))
        email := some (pyStrip (f.email.getD ""))
        phone := some (pyStrip (f.phone.getD ""))
        linkedin := some (pyStrip (f.web.getD ""))
        github := none
        about := none
        gemini_api_key := none }
    | some p =>
      { p with
        full_name := pyStrip f.full_name
        city := some (pyStrip (f.city.getD ""))
        email := some (pyStrip (f.email.getD ""))
        phone := some (pyStrip (f.phone.getD ""))
        linkedin := some (pyStrip (f.web.getD ""))
        github := none }
  let base2 : ProfileRec :=
    if hasAbout then { base with about := some (pyStrip (f.about.getD "")) }
    else base
  if hasGemini then
    { base2 with gemini_api_key := some (pyStrip (f.gemini_api_key.getD "")) }
  else base2

/-! ## Generated resumes, artifact storage, and the filesystem -/

/-- Row of the `generated_resumes` table. -/
structure ResumeRec where
  id : Nat
  user_id : Nat
  job_url : String
  created_at : Int
  pdf_path : String
  docx_path : String
  pdf_name : String
  docx_name : String
  coverage_json : String
deriving Repr, DecidableEq

/-- What a successful `generate_both` call returns (bytes are abstract;
`coverage` is carried already serialized). -/
structure RenderOutput where
  pdfBytes : List Nat
  docxBytes : List Nat
  pdfName : String
  docxName : String
  coverage : String
deriving Repr, DecidableEq

/-- The artifact filesystem: which files and directories exist, and which
removals raise an `Exception` when attempted (modelling `os.remove` /
`os.rmdir` failures). -/
structure FS where
  files : List String
  dirs : List String
  failRemove : List String
  failRmdir : List String
deriving Repr, DecidableEq

/-- Python `posixpath.dirname`, as used on `row.pdf_path`. -/
def dirname (p : String) : String :=
  let cs := p.data
  let i := (cs.reverse.findIdx? (· = '/')).elim 0 (fun j => cs.length - j)
  let head := cs.take i
  if head ≠ [] ∧ head.any (· ≠ '/') then
    ⟨(head.reverse.dropWhile (· = '/')).reverse⟩
  else ⟨head⟩

/-- Best-effort `try: if p and os.path.exists(p): os.remove(p) except Exception: pass`. -/
def tryRemove (fs : FS) (p : String) : FS :=
  if p ≠ "" ∧ fs.files.contains p then
    if fs.failRemove.contains p then fs
    else { fs with files := fs.files.eraseP (· == p) }
  else fs

/-- Best-effort `try: if d and os.path.isdir(d) and len(os.listdir(d)) == 0:
os.rmdir(d) except Exception: pass`. -/
def tryRmdirEmpty (fs : FS) (d : String) : FS :=
  if d ≠ "" ∧ fs.dirs.contains d
      ∧ (fs.files.filter (fun f => dirname f == d)).isEmpty then
    if fs.failRmdir.contains d then fs
    else { fs with dirs := fs.dirs.eraseP (· == d) }
  else fs

/-- The profile precondition of `tailor`: `not prof or not
(prof.full_name or "").strip()`. -/
def profileIncomplete (prof : Option ProfileRec) : Bool :=
  match prof with
  | none => true
  | some p => pyStrip p.full_name == ""

/-- Next autoincrement id for `generated_resumes`. -/
def freshResumeId (rows : List ResumeRec) : Nat :=
  rows.foldr (fun r m => max r.id m) 0 + 1

inductive TailorResult
  | profileIncompleteErr
  | missingUrl
  | renderFailed
  | created (rid : Nat)
deriving Repr, DecidableEq

/-- The POST branch of the `tailor` route (`generate`): gate on a usable
profile, gate on a non-empty trimmed URL, invoke the renderer (whose
outcome — result or raised exception — is the `render` parameter), then
write both artifacts into a fresh scratch directory and insert the
`GeneratedResume` row.  A renderer exception is caught and surfaced as a
render failure with no record and no files created. -/
def tailor (prof : Option ProfileRec) (uid : Nat) (rawUrl : String)
    (render : Except Unit RenderOutput) (rows : List ResumeRec) (fs : FS)
    (tmpdir : String) (now : Int) :
    TailorResult × List ResumeRec × FS :=
  if profileIncomplete prof then (.profileIncompleteErr, rows, fs)
  else if pyStrip rawUrl = "" then (.missingUrl, rows, fs)
  else
    match render with
    | .error _ => (.renderFailed, rows, fs)
    | .ok r =>
      let pdf_path := tmpdir ++ "/" ++ r.pdfName
      let docx_path := tmpdir ++ "/" ++ r.docxName
      let rid := freshResumeId rows
      let row : ResumeRec :=
        { id := rid, user_id := uid, job_url := pyStrip rawUrl,
          created_at := now, pdf_path := pdf_path, docx_path := docx_path,
          pdf_name := r.pdfName, docx_name := r.docxName,
          coverage_json := r.coverage }
      (.created rid, rows ++ [row],
       { fs with files := fs.files ++ [pdf_path, docx_path],
                 dirs := fs.dirs ++ [tmpdir] })

inductive DeleteOutcome
  | notFound
  | deleted
deriving Repr, DecidableEq

/-- The `delete_resume` route: 404 unless the row exists and is owned;
best-effort removal of both artifact files and of the then-empty scratch
directory, every failure swallowed; then the row is deleted. -/
def delete_resume (rows : List ResumeRec) (fs : FS) (uid rid : Nat) :
    DeleteOutcome × List ResumeRec × FS :=
  match rows.find? (fun r => r.id == rid) with
  | none => (.notFound, rows, fs)
  | some row =>
    if row.user_id == uid then
      let fs1 := tryRemove fs row.pdf_path
      let fs2 := tryRemove fs1 row.docx_path
      let fs3 := tryRmdirEmpty fs2 (dirname row.pdf_path)
      (.deleted, rows.eraseP (fun r => r.id == rid), fs3)
    else (.notFound, rows, fs)

/-- The `download` route: 404 unless the row exists, is owned, and the kind
is `pdf` or `docx`; otherwise serves the stored path under the stored
suggested filename. -/
def download (rows : List ResumeRec) (uid rid : Nat) (kind : String) :
    Option (String × String) :=
  match rows.find? (fun r => r.id == rid) with
  | none => none
  | some row =>
    if row.user_id == uid then
      if kind = "pdf" then some (row.pdf_path, row.pdf_name)
      else if kind = "docx" then some (row.docx_path, row.docx_name)
      else none
    else none

/-! ## The whole application as a state machine -/

/-- The persistent state: the three tables plus the artifact filesystem. -/
structure AppState where
  users : List UserRec
  profiles : List ProfileRec
  resumes : List ResumeRec
  fs : FS
deriving Repr, DecidableEq

/-- Upsert of `save_profile` on the `profiles` table (unique per
`user_id`). -/
def upsertProfile (ps : List ProfileRec) (uid : Nat) (f : ProfileForm)
    (ha hg : Bool) : List ProfileRec :=
  match ps.find? (fun p => p.user_id == uid) with
  | none => ps ++ [save_profile none uid f ha hg]
  | some _ =>
    ps.map (fun q => if q.user_id == uid then save_profile (some q) uid f ha hg
                     else q)

/-- One user-visible operation.  External nondeterminism (the random code,
the renderer outcome, the fresh scratch directory, the clock) rides on the
operation. -/
inductive Op
  | requestCode (email code : String) (now : Int)
  | verifyCode (email code : String) (now : Int)
  | saveProfile (uid : Nat) (form : ProfileForm) (hasAbout hasGemini : Bool)
  | generate (uid : Nat) (url : String) (render : Except Unit RenderOutput)
      (tmpdir : String) (now : Int)
  | deleteResume (uid rid : Nat)
  | downloadFile (uid rid : Nat) (kind : String)
  | signOut

/-- Effect of one operation on the persistent state. -/
def step (s : AppState) : Op → AppState
  | .requestCode e c t => { s with users := signin s.users e c t }
  | .verifyCode e c t => { s with users := (verify s.users e c t).2 }
  | .saveProfile uid f ha hg =>
      { s with profiles := upsertProfile s.profiles uid f ha hg }
  | .generate uid url r td t =>
      let out := tailor (s.profiles.find? (fun p => p.user_id == uid))
        uid url r s.resumes s.fs td t
      { s with resumes := out.2.1, fs := out.2.2 }
  | .deleteResume uid rid =>
      let out := delete_resume s.resumes s.fs uid rid
      { s with resumes := out.2.1, fs := out.2.2 }
  | .downloadFile _ _ _ => s
  | .signOut => s

/-! ## Claims about the generation lifecycle -/

/-- C4: `generate` fails with profile-incomplete whenever the profile is
absent or its trimmed full name is empty — whatever the other fields hold —
and in that case the renderer outcome is never consulted (the result is the
same for any two renderer behaviours) and no record and no files are
created. -/
theorem C4_profile_incomplete (prof : Option ProfileRec) (uid : Nat)
    (url : String) (r1 r2 : Except Unit RenderOutput) (rows : List ResumeRec)
    (fs : FS) (tmpdir : String) (now : Int)
    (hp : profileIncomplete prof = true) :
    tailor prof uid url r1 rows fs tmpdir now
        = (TailorResult.profileIncompleteErr, rows, fs)
      ∧ tailor prof uid url r1 rows fs tmpdir now
          = tailor prof uid url r2 rows fs tmpdir now := by
  constructor <;> simp [tailor, hp]

/-- C4 witness: a profile whose full name is whitespace but whose every
other field is populated, with two different renderer behaviours. -/
theorem C4_profile_incomplete_witness :
    tailor (some ⟨7, "   ", some "NYC", some "a@x.com", some "555",
        some "li", some "gh", some "about", some "key"⟩) 7 "https://j.example"
        (Except.ok ⟨[1], [2], "r.pdf", "r.docx", "cov"⟩) [] ⟨[], [], [], []⟩
        "/tmp/d1" 9
      = (TailorResult.profileIncompleteErr, [], ⟨[], [], [], []⟩)
    ∧ tailor (some ⟨7, "   ", some "NYC", some "a@x.com", some "555",
        some "li", some "gh", some "about", some "key"⟩) 7 "https://j.example"
        (Except.ok ⟨[1], [2], "r.pdf", "r.docx", "cov"⟩) [] ⟨[], [], [], []⟩
        "/tmp/d1" 9
      = tailor (some ⟨7, "   ", some "NYC", some "a@x.com", some "555",
          some "li", some "gh", some "about", some "key"⟩) 7 "https://j.example"
          (Except.error ()) [] ⟨[], [], [], []⟩ "/tmp/d1" 9 :=
  C4_profile_incomplete (some ⟨7, "   ", some "NYC", some "a@x.com",
      some "555", some "li", some "gh", some "about", some "key"⟩) 7
    "https://j.example" (Except.ok ⟨[1], [2], "r.pdf", "r.docx", "cov"⟩)
    (Except.error ()) [] ⟨[], [], [], []⟩ "/tmp/d1" 9 (by decide)

/-- C5: when the renderer raises, `generate` surfaces render-failed and
leaves the records and the filesystem exactly as they were: no
`GeneratedResume` row and no artifact file is created. -/
theorem C5_render_failure (prof : Option ProfileRec) (uid : Nat)
    (url : String) (rows : List ResumeRec) (fs : FS) (tmpdir : String)
    (now : Int) (hp : profileIncomplete prof = false)
    (hu : ¬ pyStrip url = "") :
    tailor prof uid url (Except.error ()) rows fs tmpdir now
      = (TailorResult.renderFailed, rows, fs) := by
  simp [tailor, hp, hu]

/-- C5 witness: a complete profile and a non-empty URL with a raising
renderer. -/
theorem C5_render_failure_witness :
    tailor (some ⟨7, "Jane Doe", some "NYC", none, none, none, none, none,
        none⟩) 7 "https://j.example" (Except.error ())
        [⟨1, 7, "u", 0, "p", "d", "pn", "dn", "cov"⟩]
        ⟨["p", "d"], ["t"], [], []⟩ "/tmp/d2" 9
      = (TailorResult.renderFailed,
         [⟨1, 7, "u", 0, "p", "d", "pn", "dn", "cov"⟩],
         ⟨["p", "d"], ["t"], [], []⟩) :=
  C5_render_failure (some ⟨7, "Jane Doe", some "NYC", none, none, none,
      none, none, none⟩) 7 "https://j.example"
    [⟨1, 7, "u", 0, "p", "d", "pn", "dn", "cov"⟩]
    ⟨["p", "d"], ["t"], [], []⟩ "/tmp/d2" 9 (by decide) (by decide)

/-- C6: deleting an owned record always deletes the metadata row — the
outcome and the resulting table are the same for every filesystem (files
present, missing, or raising on removal; directory removal failing
likewise), so cleanup errors are never surfaced. -/
theorem C6_delete_always_removes_record (rows : List ResumeRec)
    (fs fs2 : FS) (uid rid : Nat) (row : ResumeRec)
    (hfind : rows.find? (fun r => r.id == rid) = some row)
    (hown : row.user_id = uid) :
    (delete_resume rows fs uid rid).1 = DeleteOutcome.deleted
      ∧ (delete_resume rows fs uid rid).2.1
          = rows.eraseP (fun r => r.id == rid)
      ∧ (delete_resume rows fs uid rid).2.1.length + 1 = rows.length
      ∧ (delete_resume rows fs uid rid).1 = (delete_resume rows fs2 uid rid).1
      ∧ (delete_resume rows fs uid rid).2.1
          = (delete_resume rows fs2 uid rid).2.1 := by
  have hbeq : (row.user_id == uid) = true := by simp [hown]
  have hmem : row ∈ rows := List.mem_of_find?_eq_some hfind
  have hp : (row.id == rid) = true :=
    List.find?_some (p := fun (r : ResumeRec) => r.id == rid) hfind
  have hlen : (rows.eraseP (fun r => r.id == rid)).length + 1 = rows.length := by
    rw [List.length_eraseP_of_mem hmem hp]
    have hpos : 0 < rows.length := List.length_pos_of_mem hmem
    omega
  refine ⟨?_, ?_, ?_, ?_, ?_⟩ <;> simp [delete_resume, hfind, hbeq, hlen]

/-- C6 witness: both artifacts already missing and the directory removal
raising on one filesystem, everything present on the other; the record is
deleted either way with identical outcomes. -/
theorem C6_delete_always_removes_record_witness :
    (delete_resume [⟨3, 7, "u", 0, "/t/p", "/t/d", "pn", "dn", "cov"⟩]
        ⟨[], [], [], ["/t"]⟩ 7 3).1 = DeleteOutcome.deleted
      ∧ (delete_resume [⟨3, 7, "u", 0, "/t/p", "/t/d", "pn", "dn", "cov"⟩]
          ⟨[], [], [], ["/t"]⟩ 7 3).2.1
          = List.eraseP (fun r => r.id == 3)
              [⟨3, 7, "u", 0, "/t/p", "/t/d", "pn", "dn", "cov"⟩]
      ∧ (delete_resume [⟨3, 7, "u", 0, "/t/p", "/t/d", "pn", "dn", "cov"⟩]
          ⟨[], [], [], ["/t"]⟩ 7 3).2.1.length + 1
          = [(⟨3, 7, "u", 0, "/t/p", "/t/d", "pn", "dn", "cov"⟩ : ResumeRec)].length
      ∧ (delete_resume [⟨3, 7, "u", 0, "/t/p", "/t/d", "pn", "dn", "cov"⟩]
          ⟨[], [], [], ["/t"]⟩ 7 3).1
          = (delete_resume [⟨3, 7, "u", 0, "/t/p", "/t/d", "pn", "dn", "cov"⟩]
              ⟨["/t/p", "/t/d"], ["/t"], ["/t/p"], []⟩ 7 3).1
      ∧ (delete_resume [⟨3, 7, "u", 0, "/t/p", "/t/d", "pn", "dn", "cov"⟩]
          ⟨[], [], [], ["/t"]⟩ 7 3).2.1
          = (delete_resume [⟨3, 7, "u", 0, "/t/p", "/t/d", "pn", "dn", "cov"⟩]
              ⟨["/t/p", "/t/d"], ["/t"], ["/t/p"], []⟩ 7 3).2.1 :=
  C6_delete_always_removes_record
    [⟨3, 7, "u", 0, "/t/p", "/t/d", "pn", "dn", "cov"⟩]
    ⟨[], [], [], ["/t"]⟩ ⟨["/t/p", "/t/d"], ["/t"], ["/t/p"], []⟩ 7 3
    ⟨3, 7, "u", 0, "/t/p", "/t/d", "pn", "dn", "cov"⟩ (by decide) (by decide)

/-- C7: `download` yields not-found exactly when no record with the id
exists, or the record belongs to a different account, or the kind is
neither `pdf` nor `docx`; on an owned record it serves the stored path and
stored suggested filename of the requested kind. -/
theorem C7_download_characterization (rows : List ResumeRec) (uid rid : Nat)
    (kind : String) :
    (download rows uid rid kind = none ↔
      (rows.find? (fun r => r.id == rid)).elim True
        (fun row => row.user_id ≠ uid ∨ (kind ≠ "pdf" ∧ kind ≠ "docx")))
    ∧ (rows.find? (fun r => r.id == rid)).elim True
        (fun row => row.user_id ≠ uid ∨
          (download rows uid rid "pdf" = some (row.pdf_path, row.pdf_name)
            ∧ download rows uid rid "docx"
                = some (row.docx_path, row.docx_name))) := by
  cases hfind : rows.find? (fun r => r.id == rid) with
  | none => simp [download, hfind]
  | some row =>
    by_cases hown : row.user_id = uid
    · have hbeq : (row.user_id == uid) = true := by simp [hown]
      by_cases hpdf : kind = "pdf"
      · simp [download, hfind, hbeq, hown, hpdf]
      · by_cases hdocx : kind = "docx"
        · simp [download, hfind, hbeq, hown, hpdf, hdocx]
        · simp [download, hfind, hbeq, hown, hpdf, hdocx]
    · have hbeq : (row.user_id == uid) = false := by simp [hown]
      simp [download, hfind, hbeq, hown]

/-- C9: every successful profile save — create or update, whatever the
schema flags — stores the trimmed combined web-link field in `linkedin`
and leaves `github` null. -/
theorem C9_github_null_linkedin_web (prof : Option ProfileRec) (uid : Nat)
    (f : ProfileForm) (ha hg : Bool) :
    (save_profile prof uid f ha hg).github = none
      ∧ (save_profile prof uid f ha hg).linkedin
          = some (pyStrip (f.web.getD "")) := by
  cases prof <;> cases ha <;> cases hg <;> simp [save_profile]

/-! ## Global invariants -/

/-- The Account invariant: the one-time code and its expiry are both set or
both null. -/
def codeExpInvB (u : UserRec) : Bool :=
  u.verify_code.isSome == u.verify_expiry.isSome

theorem all_updateUser (db : List UserRec) (e : String)
    (f : UserRec → UserRec) (P : UserRec → Bool)
    (hdb : db.all P = true) (hf : ∀ u, P (f u) = true) :
    (updateUser db e f).all P = true := by
  rw [updateUser, List.all_map]
  rw [List.all_eq_true] at hdb ⊢
  intro x hx
  by_cases hxe : (x.email == e) = true
  · simpa [Function.comp, hxe] using hf x
  · simpa [Function.comp, hxe] using hdb x hx

/-- C8: every operation preserves the both-set-or-both-null invariant on
code and expiry: `request_code` sets both, a successful `verify_code`
clears both, and nothing else touches either. -/
theorem C8_code_expiry_invariant (s : AppState) (op : Op)
    (h : s.users.all codeExpInvB = true) :
    (step s op).users.all codeExpInvB = true := by
  cases op with
  | requestCode e c t =>
    show (signin s.users e c t).all codeExpInvB = true
    unfold signin
    cases hf : s.users.find? (fun u => u.email == normEmail e) with
    | none =>
      rw [List.all_append]
      simp [h, codeExpInvB, newUser]
    | some w =>
      exact all_updateUser _ _ _ _ h (fun u => by simp [codeExpInvB, issueFn])
  | verifyCode e c t =>
    show ((verify s.users e c t).2).all codeExpInvB = true
    rcases verify_snd_cases s.users e c t with hh | hh <;> rw [hh]
    · exact h
    · exact all_updateUser _ _ _ _ h (fun u => by simp [codeExpInvB, clearFn])
  | saveProfile uid f ha hg => exact h
  | generate uid url r td t => exact h
  | deleteResume uid rid => exact h
  | downloadFile uid rid kind => exact h
  | signOut => exact h

/-- C8 witness: issuing a fresh code on a state satisfying the invariant. -/
theorem C8_code_expiry_invariant_witness :
    (step ⟨[⟨1, "a@x.com", 1, none, none⟩], [], [], ⟨[], [], [], []⟩⟩
        (Op.requestCode "a@x.com" "222222" 3)).users.all codeExpInvB
      = true :=
  C8_code_expiry_invariant
    ⟨[⟨1, "a@x.com", 1, none, none⟩], [], [], ⟨[], [], [], []⟩⟩
    (Op.requestCode "a@x.com" "222222" 3) (by decide)

/-- A verified user stays present and verified across any step. -/
theorem step_users_verified_stable (s : AppState) (op : Op) (e : String)
    (u : UserRec) (h : s.users.find? (fun v => v.email == e) = some u)
    (hv : u.verified = 1) :
    ∃ u', (step s op).users.find? (fun v => v.email == e) = some u'
      ∧ u'.verified = 1 := by
  cases op with
  | requestCode e0 c t =>
    show ∃ u', (signin s.users e0 c t).find? (fun v => v.email == e) = some u'
      ∧ u'.verified = 1
    unfold signin
    cases hf : s.users.find? (fun v => v.email == normEmail e0) with
    | none =>
      refine ⟨u, ?_, hv⟩
      rw [List.find?_append, h]
      rfl
    | some w =>
      have hg : ∀ v : UserRec,
          ((fun v => if v.email == normEmail e0 then issueFn c t v else v) v).email
            = v.email := by
        intro v
        by_cases hh : (v.email == normEmail e0) = true <;>
          simp [hh, issueFn_email]
      refine ⟨if (u.email == normEmail e0) = true then issueFn c t u else u, ?_, ?_⟩
      · unfold updateUser
        rw [find?_map_email _ hg, h]
        by_cases hue : (u.email == normEmail e0) = true
        · simp only [Option.map_some', hue, if_true]
        · simp [hue]
          intro hc
          exact absurd hc (by simpa using hue)
      · by_cases hue : (u.email == normEmail e0) = true <;>
          simp [hue, issueFn, hv]
  | verifyCode e0 c t =>
    rcases verify_snd_cases s.users e0 c t with hh | hh
    · refine ⟨u, ?_, hv⟩
      show ((verify s.users e0 c t).2).find? (fun v => v.email == e) = some u
      rw [hh]
      exact h
    · have hg : ∀ v : UserRec,
          ((fun v => if v.email == normEmail e0 then clearFn v else v) v).email
            = v.email := by
        intro v
        by_cases hh2 : (v.email == normEmail e0) = true <;>
          simp [hh2, clearFn_email]
      refine ⟨if (u.email == normEmail e0) = true then clearFn u else u, ?_, ?_⟩
      · show ((verify s.users e0 c t).2).find? (fun v => v.email == e) = _
        rw [hh]
        unfold updateUser
        rw [find?_map_email _ hg, h]
        by_cases hue : (u.email == normEmail e0) = true
        · simp only [Option.map_some', hue, if_true]
        · simp [hue]
          intro hc
          exact absurd hc (by simpa using hue)
      · by_cases hue : (u.email == normEmail e0) = true <;>
          simp [hue, clearFn, hv]
  | saveProfile uid f ha hg => exact ⟨u, h, hv⟩
  | generate uid url r td t => exact ⟨u, h, hv⟩
  | deleteResume uid rid => exact ⟨u, h, hv⟩
  | downloadFile uid rid kind => exact ⟨u, h, hv⟩
  | signOut => exact ⟨u, h, hv⟩

/-- C10: the verified flag is monotone — after any operation the account is
still there and still verified — and `request_code` on an already-verified
account merely installs a fresh code and expiry on the otherwise unchanged
user. -/
theorem C10_verified_monotone (s : AppState) (op : Op) (e c : String)
    (u : UserRec) (t : Int) (he : normEmail e = e)
    (h1 : s.users.find? (fun v => v.email == e) = some u)
    (hv : u.verified = 1) :
    ((step s op).users.find? (fun v => v.email == e)).elim False
        (fun w => w.verified = 1)
      ∧ (signin s.users e c t).find? (fun v => v.email == e)
          = some { u with verify_code := some c,
                          verify_expiry := some ⟨t + 600, true⟩ } := by
  constructor
  · obtain ⟨u', hu', hv'⟩ := step_users_verified_stable s op e u h1 hv
    rw [hu']
    exact hv'
  · have h1' : s.users.find? (fun v => v.email == normEmail e) = some u := by
      rw [he]; exact h1
    simp only [signin, h1']
    rw [he]
    have hres := find?_updateUser_self s.users e (issueFn c t)
      (issueFn_email c t) u h1
    exact hres

/-- C10 witness: a second code request for an already-verified account. -/
theorem C10_verified_monotone_witness :
    ((step ⟨[⟨1, "a@x.com", 1, some "111111", some ⟨9, true⟩⟩], [], [],
          ⟨[], [], [], []⟩⟩
        (Op.requestCode "a@x.com" "222222" 3)).users.find?
          (fun v => v.email == "a@x.com")).elim False
        (fun w => w.verified = 1)
      ∧ (signin [⟨1, "a@x.com", 1, some "111111", some ⟨9, true⟩⟩]
            "a@x.com" "333333" 4).find? (fun v => v.email == "a@x.com")
          = some { (⟨1, "a@x.com", 1, some "111111", some ⟨9, true⟩⟩ : UserRec)
                   with verify_code := some "333333",
                        verify_expiry := some ⟨4 + 600, true⟩ } :=
  C10_verified_monotone
    ⟨[⟨1, "a@x.com", 1, some "111111", some ⟨9, true⟩⟩], [], [],
      ⟨[], [], [], []⟩⟩
    (Op.requestCode "a@x.com" "222222" 3) "a@x.com" "333333"
    ⟨1, "a@x.com", 1, some "111111", some ⟨9, true⟩⟩ 4
    (by decide) (by decide) rfl

end AutoTailor
